import Mathlib

/-!
A verification development for the `TextInspectorTool` of
`examples/GAIA_submission/gaia.py`.  Python strings are modelled as lists of
characters, the external Document Conversion Service as an optional
`ConversionResult` argument (`none` models a conversion failure that the tool
propagates), and the external Language Model Client as an `Outcome`
constructor recording the exact message list that would be sent.
-/

namespace Gaia

/-- Python strings, modelled as lists of characters. -/
abbrev Str := List Char

/-- `segStart needle hay`: `hay` starts with `needle`. -/
def segStart : Str → Str → Bool
  | [], _ => true
  | _ :: _, [] => false
  | a :: as, b :: bs => a == b && segStart as bs

/-- Python `needle in hay` for strings: `needle` occurs contiguously in `hay`. -/
def hasSegment (needle : Str) : Str → Bool
  | [] => needle.isEmpty
  | c :: rest => segStart needle (c :: rest) || hasSegment needle rest

/-- Python `s[-4:]`: the last four characters (the whole string when shorter). -/
def sliceLastFour (s : Str) : Str := s.drop (s.length - 4)

/-- Python `s.endswith(suffix)`, used to state claims about paths that end in a
given extension. -/
def endsWith (suffix s : Str) : Bool := s.drop (s.length - suffix.length) == suffix

/-- Python `str(x)` on an optional string: `None` prints as `"None"`. -/
def pyStr : Option Str → Str
  | none => "None".data
  | some s => s

/-- Python truthiness test `not question`: `None` and `""` are falsy. -/
def pyFalsy : Option Str → Bool
  | none => true
  | some s => s.isEmpty

/-- The result of `MarkdownConverter.convert`: a title (possibly `None`) and the
extracted text content. -/
structure ConversionResult where
  title : Option Str
  text_content : Str
deriving DecidableEq

/-- Message roles used by the tool (`MessageRole.SYSTEM` / `MessageRole.USER`). -/
inductive MessageRole where
  | SYSTEM
  | USER
deriving DecidableEq

/-- A chat message: a role and a content string. -/
structure Message where
  role : MessageRole
  content : Str
deriving DecidableEq

/-- Errors the tool can surface: a propagated conversion failure, or the
image-rejection `Exception` raised by the tool itself. -/
inductive PyError where
  | conversionError
  | unsupportedInputError (msg : Str)
deriving DecidableEq

/-- Observable outcome of one call to an inspection entry point: an exception,
a directly returned string, or a call to the Language Model Client with the
given message list (whose response is then returned verbatim). -/
inductive Outcome where
  | raises (e : PyError)
  | returns (s : Str)
  | callsModel (messages : List Message)
deriving DecidableEq

/-- The message of the image-rejection exception raised by both entry points. -/
def imagesMessage : Str :=
  "Cannot use inspect_file_as_text tool with images: use visualizer instead!".data

/-- Module-level switch `USE_OPEN_MODELS = False`. -/
def USE_OPEN_MODELS : Bool := false

/-- Module-level `text_limit`: 70000, overwritten to 20000 when open models are
in use. -/
def text_limit : Nat := if USE_OPEN_MODELS then 20000 else 70000

/-- The two-message prompt literal built by
`TextInspectorTool.forward_initial_exam_mode` once all early returns have been
passed: a system message with the title and the truncated text, and a user
message with the question. -/
def examMessages (text_limit : Nat) (result : ConversionResult) (question : Str) :
    List Message :=
  [⟨.SYSTEM, "Here is a file:\n### ".data ++ pyStr result.title ++ "\n\n".data
      ++ result.text_content.take text_limit⟩,
   ⟨.USER, question⟩]

/-- The three-message prompt literal built by `TextInspectorTool.forward` once
all early returns have been passed: a system message with a caption instruction
and the question, a user message with the title and the truncated text, and a
second user message with the three-headings instruction and the question. -/
def forwardMessages (text_limit : Nat) (result : ConversionResult) (question : Str) :
    List Message :=
  [⟨.SYSTEM, "You will have to write a short caption for this file, then answer this question:".data
      ++ question⟩,
   ⟨.USER, "Here is the complete file:\n### ".data ++ pyStr result.title ++ "\n\n".data
      ++ result.text_content.take text_limit⟩,
   ⟨.USER, "Now answer the question below. Use these three headings: \x271. Short answer\x27, \x272. Extremely detailed answer\x27, \x273. Additional Context on the document and question asked\x27.".data
      ++ question⟩]

/-- `TextInspectorTool.forward_initial_exam_mode`.  The conversion outcome is
passed in as `convert` (`none` models a failure of the external converter,
which propagates). -/
def forward_initial_exam_mode (text_limit : Nat) (convert : Option ConversionResult)
    (file_path : Str) (question : Option Str) : Outcome :=
  match convert with
  | none => .raises .conversionError
  | some result =>
    if sliceLastFour file_path ∈ [".png".data, ".jpg".data] then
      .raises (.unsupportedInputError imagesMessage)
    else if hasSegment ".zip".data file_path then
      .returns result.text_content
    else if pyFalsy question then
      .returns result.text_content
    else
      .callsModel (examMessages text_limit result (question.getD []))

/-- `TextInspectorTool.forward`.  Same structure as the initial-exam mode, with
the three-message prompt. -/
def forward (text_limit : Nat) (convert : Option ConversionResult)
    (file_path : Str) (question : Option Str) : Outcome :=
  match convert with
  | none => .raises .conversionError
  | some result =>
    if sliceLastFour file_path ∈ [".png".data, ".jpg".data] then
      .raises (.unsupportedInputError imagesMessage)
    else if hasSegment ".zip".data file_path then
      .returns result.text_content
    else if pyFalsy question then
      .returns result.text_content
    else
      .callsModel (forwardMessages text_limit result (question.getD []))

/-- Whether an outcome invokes the Language Model Client. -/
def Outcome.isModelCall : Outcome → Bool
  | .callsModel _ => true
  | _ => false

/-- Whether an outcome raises the image-rejection exception. -/
def Outcome.isUnsupportedInputRaise : Outcome → Bool
  | .raises (.unsupportedInputError _) => true
  | _ => false

/-- The message list sent to the Language Model Client (empty if no call). -/
def Outcome.modelMessages : Outcome → List Message
  | .callsModel ms => ms
  | _ => []

/-- The concatenation of all message contents sent to the Language Model
Client. -/
def Outcome.joinedContent (o : Outcome) : Str := (o.modelMessages.map Message.content).flatten

/-! Helper lemmas about the string primitives. -/

/-- A list started by itself: `segStart n (n ++ t)` holds. -/
theorem segStart_refl_append (n t : Str) : segStart n (n ++ t) = true := by
  induction n with
  | nil => rfl
  | cons a as ih => simp [segStart, ih]

/-- A segment occurring at the front is found by `hasSegment`. -/
theorem hasSegment_here (n t : Str) : hasSegment n (n ++ t) = true := by
  cases n with
  | nil =>
    cases t with
    | nil => rfl
    | cons c r => simp [hasSegment, segStart]
  | cons a as =>
    simp only [List.cons_append, hasSegment, Bool.or_eq_true]
    exact Or.inl (segStart_refl_append (a :: as) t)

/-- `hasSegment` is preserved by prepending characters. -/
theorem hasSegment_append_left (n s t : Str) (h : hasSegment n t = true) :
    hasSegment n (s ++ t) = true := by
  induction s with
  | nil => simpa using h
  | cons c cs ih => simp [hasSegment, ih]

/-- A path ending in a suffix of at least four characters has, as its last four
characters, the last four characters of that suffix. -/
theorem sliceLastFour_of_endsWith {suf fp : Str} (h : endsWith suf fp = true)
    (h4 : 4 ≤ suf.length) : sliceLastFour fp = sliceLastFour suf := by
  have heq : fp.drop (fp.length - suf.length) = suf := by
    simpa [endsWith] using h
  have hlen : suf.length ≤ fp.length := by
    have hl := congrArg List.length heq
    simp [List.length_drop] at hl
    omega
  have harith : fp.length - 4 = (fp.length - suf.length) + (suf.length - 4) := by omega
  unfold sliceLastFour
  rw [harith, ← List.drop_drop, heq]

/-! Helper lemmas describing the branches of the two entry points. -/

/-- When the four-character slice matches an image extension, both entry points
raise the image-rejection exception (given a conversion result). -/
theorem image_check_fires (tl : Nat) (r : ConversionResult) (fp : Str) (q : Option Str)
    (h : sliceLastFour fp ∈ [".png".data, ".jpg".data]) :
    forward tl (some r) fp q = .raises (.unsupportedInputError imagesMessage)
    ∧ forward_initial_exam_mode tl (some r) fp q
        = .raises (.unsupportedInputError imagesMessage) := by
  constructor
  · simp only [forward]
    rw [if_pos h]
  · simp only [forward_initial_exam_mode]
    rw [if_pos h]

/-- When the image check does not fire and the path contains `.zip`, both entry
points return the raw text content. -/
theorem zip_branch (tl : Nat) (r : ConversionResult) (fp : Str) (q : Option Str)
    (himg : sliceLastFour fp ∉ [".png".data, ".jpg".data])
    (hzip : hasSegment ".zip".data fp = true) :
    forward tl (some r) fp q = .returns r.text_content
    ∧ forward_initial_exam_mode tl (some r) fp q = .returns r.text_content := by
  constructor
  · simp only [forward]
    rw [if_neg himg, if_pos hzip]
  · simp only [forward_initial_exam_mode]
    rw [if_neg himg, if_pos hzip]

/-- When the image and zip checks do not fire and the question is falsy, both
entry points return the raw text content. -/
theorem no_question_branch (tl : Nat) (r : ConversionResult) (fp : Str) (q : Option Str)
    (himg : sliceLastFour fp ∉ [".png".data, ".jpg".data])
    (hzip : hasSegment ".zip".data fp = false)
    (hq : pyFalsy q = true) :
    forward tl (some r) fp q = .returns r.text_content
    ∧ forward_initial_exam_mode tl (some r) fp q = .returns r.text_content := by
  constructor
  · simp only [forward]
    rw [if_neg himg, if_neg (by simp [hzip]), if_pos hq]
  · simp only [forward_initial_exam_mode]
    rw [if_neg himg, if_neg (by simp [hzip]), if_pos hq]

/-- When no early return fires, `forward` sends its three-message prompt. -/
theorem forward_shape (tl : Nat) (r : ConversionResult) (fp : Str) (q : Str)
    (himg : sliceLastFour fp ∉ [".png".data, ".jpg".data])
    (hzip : hasSegment ".zip".data fp = false)
    (hq : q.isEmpty = false) :
    forward tl (some r) fp (some q) = .callsModel (forwardMessages tl r q) := by
  simp only [forward]
  rw [if_neg himg, if_neg (by simp [hzip]), if_neg (by simp [pyFalsy, hq])]
  rfl

/-- When no early return fires, `forward_initial_exam_mode` sends its
two-message prompt. -/
theorem exam_shape (tl : Nat) (r : ConversionResult) (fp : Str) (q : Str)
    (himg : sliceLastFour fp ∉ [".png".data, ".jpg".data])
    (hzip : hasSegment ".zip".data fp = false)
    (hq : q.isEmpty = false) :
    forward_initial_exam_mode tl (some r) fp (some q)
      = .callsModel (examMessages tl r q) := by
  simp only [forward_initial_exam_mode]
  rw [if_neg himg, if_neg (by simp [hzip]), if_neg (by simp [pyFalsy, hq])]
  rfl

/-! Claim theorems. -/

/-- Claim C1, corrected: for every file path ending in `.png` or `.jpg`, both
entry points fail with the image-rejection exception for every question value,
provided the conversion succeeded; when the conversion fails, the conversion
error propagates instead, because the conversion call precedes the image
check. -/
theorem C1_image_rejection_on_success (tl : Nat) (r : ConversionResult) (fp : Str)
    (q : Option Str)
    (h : endsWith ".png".data fp = true ∨ endsWith ".jpg".data fp = true) :
    forward tl (some r) fp q = .raises (.unsupportedInputError imagesMessage)
    ∧ forward_initial_exam_mode tl (some r) fp q
        = .raises (.unsupportedInputError imagesMessage) := by
  have hs : sliceLastFour fp ∈ [".png".data, ".jpg".data] := by
    rcases h with h | h
    · rw [sliceLastFour_of_endsWith h (by decide)]
      decide
    · rw [sliceLastFour_of_endsWith h (by decide)]
      decide
  exact image_check_fires tl r fp q hs

/-- Claim C1, counterexample to the claim as stated: on a `.png` path whose
conversion fails, both entry points surface the conversion error, not the
image-rejection exception. -/
theorem C1_counterexample :
    forward text_limit none "photo.png".data none = .raises .conversionError
    ∧ (forward text_limit none "photo.png".data none).isUnsupportedInputRaise = false
    ∧ forward_initial_exam_mode text_limit none "photo.png".data none
        = .raises .conversionError :=
  ⟨rfl, rfl, rfl⟩

/-- Claim C1, witness: the amended theorem applied at a concrete `.png` path
with a successful conversion. -/
theorem C1_witness :
    (endsWith ".png".data "photo.png".data = true
      ∨ endsWith ".jpg".data "photo.png".data = true)
    ∧ forward 70000 (some ⟨some "T".data, "body".data⟩) "photo.png".data none
        = .raises (.unsupportedInputError imagesMessage)
    ∧ forward_initial_exam_mode 70000 (some ⟨some "T".data, "body".data⟩) "photo.png".data none
        = .raises (.unsupportedInputError imagesMessage) := by
  refine ⟨Or.inl (by decide), ?_, ?_⟩
  · exact (C1_image_rejection_on_success 70000 ⟨some "T".data, "body".data⟩
      "photo.png".data none (Or.inl (by decide))).1
  · exact (C1_image_rejection_on_success 70000 ⟨some "T".data, "body".data⟩
      "photo.png".data none (Or.inl (by decide))).2

/-- Claim C3, counterexample to the claim as stated: a path containing `.zip`
that also ends in `.png` raises the image-rejection exception instead of
returning the text content. -/
theorem C3_counterexample :
    forward text_limit (some ⟨some "T".data, "contents".data⟩) "archive.zip.png".data none
      = .raises (.unsupportedInputError imagesMessage)
    ∧ forward text_limit (some ⟨some "T".data, "contents".data⟩) "archive.zip.png".data none
      ≠ .returns "contents".data :=
  ⟨by decide, by decide⟩

/-- Claim C3, corrected: for every file path containing `.zip` anywhere whose
last four characters are not `.png` or `.jpg`, both entry points return the
conversion result's text content unmodified and never invoke the Language
Model Client, regardless of the question. -/
theorem C3_zip_returns_raw (tl : Nat) (r : ConversionResult) (fp : Str) (q : Option Str)
    (hzip : hasSegment ".zip".data fp = true)
    (himg : sliceLastFour fp ∉ [".png".data, ".jpg".data]) :
    forward tl (some r) fp q = .returns r.text_content
    ∧ forward_initial_exam_mode tl (some r) fp q = .returns r.text_content
    ∧ (forward tl (some r) fp q).isModelCall = false
    ∧ (forward_initial_exam_mode tl (some r) fp q).isModelCall = false := by
  obtain ⟨h1, h2⟩ := zip_branch tl r fp q himg hzip
  exact ⟨h1, h2, by rw [h1]; rfl, by rw [h2]; rfl⟩

/-- Claim C3, witness: the amended theorem applied to `not.zipped.txt`, which
contains `.zip` only as an interior substring, with a question supplied. -/
theorem C3_witness :
    hasSegment ".zip".data "not.zipped.txt".data = true
    ∧ (sliceLastFour "not.zipped.txt".data ∉ [".png".data, ".jpg".data])
    ∧ forward 70000 (some ⟨none, "listing".data⟩) "not.zipped.txt".data
        (some "summarize".data) = .returns "listing".data
    ∧ (forward 70000 (some ⟨none, "listing".data⟩) "not.zipped.txt".data
        (some "summarize".data)).isModelCall = false := by
  refine ⟨by decide, by decide, ?_, ?_⟩
  · exact (C3_zip_returns_raw 70000 ⟨none, "listing".data⟩ "not.zipped.txt".data
      (some "summarize".data) (by decide) (by decide)).1
  · exact (C3_zip_returns_raw 70000 ⟨none, "listing".data⟩ "not.zipped.txt".data
      (some "summarize".data) (by decide) (by decide)).2.2.1

/-- Claim C4, counterexample to the claim as stated: with the question absent
but the path ending in `.png`, inspection raises the image-rejection exception
instead of returning the text content. -/
theorem C4_counterexample :
    forward text_limit (some ⟨some "T".data, "abc".data⟩) "img.png".data none
      = .raises (.unsupportedInputError imagesMessage)
    ∧ forward text_limit (some ⟨some "T".data, "abc".data⟩) "img.png".data none
      ≠ .returns "abc".data :=
  ⟨by decide, by decide⟩

/-- Claim C4, corrected: for every input whose question is absent or empty and
whose last four path characters are not `.png` or `.jpg`, both entry points
return the conversion result's text content in full — untruncated for any
`text_limit` — and never invoke the Language Model Client. -/
theorem C4_no_question_returns_raw (tl : Nat) (r : ConversionResult) (fp : Str)
    (q : Option Str)
    (hq : pyFalsy q = true)
    (himg : sliceLastFour fp ∉ [".png".data, ".jpg".data]) :
    forward tl (some r) fp q = .returns r.text_content
    ∧ forward_initial_exam_mode tl (some r) fp q = .returns r.text_content
    ∧ (forward tl (some r) fp q).isModelCall = false
    ∧ (forward_initial_exam_mode tl (some r) fp q).isModelCall = false := by
  have h : forward tl (some r) fp q = .returns r.text_content
      ∧ forward_initial_exam_mode tl (some r) fp q = .returns r.text_content := by
    cases hz : hasSegment ".zip".data fp with
    | true => exact zip_branch tl r fp q himg hz
    | false => exact no_question_branch tl r fp q himg hz hq
  exact ⟨h.1, h.2, by rw [h.1]; rfl, by rw [h.2]; rfl⟩

/-- Claim C4, witness: the spec's scenario 5 — a 100000-character text with
`text_limit` 70000 and no question is returned in full. -/
theorem C4_witness :
    pyFalsy none = true
    ∧ (sliceLastFour "report.pdf".data ∉ [".png".data, ".jpg".data])
    ∧ forward 70000 (some ⟨some "Q3 Report".data, List.replicate 100000 'A'⟩)
        "report.pdf".data none = .returns (List.replicate 100000 'A') := by
  refine ⟨by decide, by decide, ?_⟩
  exact (C4_no_question_returns_raw 70000 ⟨some "Q3 Report".data, List.replicate 100000 'A'⟩
    "report.pdf".data none (by decide) (by decide)).1

/-- Claim C9: the image-extension check is evaluated before the `.zip`
substring check, so a path that both contains `.zip` and ends in `.png` or
`.jpg` raises the image-rejection exception rather than returning the text
content, in both entry points. -/
theorem C9_image_check_precedes_zip (tl : Nat) (r : ConversionResult) (fp : Str)
    (q : Option Str)
    (hzip : hasSegment ".zip".data fp = true)
    (h : endsWith ".png".data fp = true ∨ endsWith ".jpg".data fp = true) :
    forward tl (some r) fp q = .raises (.unsupportedInputError imagesMessage)
    ∧ forward_initial_exam_mode tl (some r) fp q
        = .raises (.unsupportedInputError imagesMessage)
    ∧ forward tl (some r) fp q ≠ .returns r.text_content := by
  have hs : sliceLastFour fp ∈ [".png".data, ".jpg".data] := by
    rcases h with h | h
    · rw [sliceLastFour_of_endsWith h (by decide)]
      decide
    · rw [sliceLastFour_of_endsWith h (by decide)]
      decide
  obtain ⟨h1, h2⟩ := image_check_fires tl r fp q hs
  refine ⟨h1, h2, ?_⟩
  rw [h1]
  intro hcon
  exact Outcome.noConfusion hcon

/-- Claim C9, witness: the theorem applied to `data.zip.jpg`. -/
theorem C9_witness :
    hasSegment ".zip".data "data.zip.jpg".data = true
    ∧ endsWith ".jpg".data "data.zip.jpg".data = true
    ∧ forward 70000 (some ⟨none, "x".data⟩) "data.zip.jpg".data (some "what".data)
        = .raises (.unsupportedInputError imagesMessage) := by
  refine ⟨by decide, by decide, ?_⟩
  exact (C9_image_check_precedes_zip 70000 ⟨none, "x".data⟩ "data.zip.jpg".data
    (some "what".data) (by decide) (Or.inr (by decide))).1

/-- Claim C6: the two entry points agree on every path that does not reach the
model call — one invokes the Language Model Client exactly when the other
does, and when neither does (conversion failure, image rejection, `.zip`
paths, absent question) their outcomes are identical. -/
theorem C6_entry_points_agree (tl : Nat) (conv : Option ConversionResult) (fp : Str)
    (q : Option Str) :
    (forward tl conv fp q).isModelCall
      = (forward_initial_exam_mode tl conv fp q).isModelCall
    ∧ ((forward tl conv fp q).isModelCall = false →
        forward tl conv fp q = forward_initial_exam_mode tl conv fp q) := by
  cases conv with
  | none => exact ⟨rfl, fun _ => rfl⟩
  | some r =>
    simp only [forward, forward_initial_exam_mode]
    by_cases h1 : sliceLastFour fp ∈ [".png".data, ".jpg".data]
    · rw [if_pos h1, if_pos h1]
      exact ⟨rfl, fun _ => rfl⟩
    · rw [if_neg h1, if_neg h1]
      by_cases h2 : hasSegment ".zip".data fp = true
      · rw [if_pos h2, if_pos h2]
        exact ⟨rfl, fun _ => rfl⟩
      · rw [if_neg h2, if_neg h2]
        by_cases h3 : pyFalsy q = true
        · rw [if_pos h3, if_pos h3]
          exact ⟨rfl, fun _ => rfl⟩
        · rw [if_neg h3, if_neg h3]
          exact ⟨rfl, fun hcon => by simp [Outcome.isModelCall] at hcon⟩

/-- Claim C6, witness: on a `.zip` path neither entry point calls the model and
their outcomes coincide. -/
theorem C6_witness :
    (forward 70000 (some ⟨none, "t".data⟩) "a.zip".data (some "x".data)).isModelCall = false
    ∧ forward 70000 (some ⟨none, "t".data⟩) "a.zip".data (some "x".data)
        = forward_initial_exam_mode 70000 (some ⟨none, "t".data⟩) "a.zip".data
            (some "x".data) := by
  refine ⟨by decide, ?_⟩
  exact (C6_entry_points_agree 70000 (some ⟨none, "t".data⟩) "a.zip".data
    (some "x".data)).2 (by decide)

/-- Claim C7: for every file path ending in `.png` and every question, neither
entry point ever invokes the Language Model Client, and whenever the
conversion yields a result the outcome is the image-rejection exception. -/
theorem C7_png_never_calls_model (tl : Nat) (conv : Option ConversionResult) (fp : Str)
    (q : Option Str)
    (h : endsWith ".png".data fp = true) :
    (forward tl conv fp q).isModelCall = false
    ∧ (forward_initial_exam_mode tl conv fp q).isModelCall = false
    ∧ ∀ r : ConversionResult, conv = some r →
        forward tl conv fp q = .raises (.unsupportedInputError imagesMessage)
        ∧ forward_initial_exam_mode tl conv fp q
            = .raises (.unsupportedInputError imagesMessage) := by
  have hs : sliceLastFour fp ∈ [".png".data, ".jpg".data] := by
    rw [sliceLastFour_of_endsWith h (by decide)]
    decide
  cases conv with
  | none => exact ⟨rfl, rfl, fun r hr => Option.noConfusion hr⟩
  | some r =>
    obtain ⟨h1, h2⟩ := image_check_fires tl r fp q hs
    refine ⟨by rw [h1]; rfl, by rw [h2]; rfl, ?_⟩
    intro r' hr'
    injection hr' with he
    subst he
    exact ⟨h1, h2⟩

/-- Claim C7, witness: the theorem applied to `chart.png` with a question and a
successful conversion. -/
theorem C7_witness :
    endsWith ".png".data "chart.png".data = true
    ∧ (forward 70000 (some ⟨none, "t".data⟩) "chart.png".data
        (some "what?".data)).isModelCall = false
    ∧ forward 70000 (some ⟨none, "t".data⟩) "chart.png".data (some "what?".data)
        = .raises (.unsupportedInputError imagesMessage) := by
  refine ⟨by decide, ?_, ?_⟩
  · exact (C7_png_never_calls_model 70000 (some ⟨none, "t".data⟩) "chart.png".data
      (some "what?".data) (by decide)).1
  · exact ((C7_png_never_calls_model 70000 (some ⟨none, "t".data⟩) "chart.png".data
      (some "what?".data) (by decide)).2.2 ⟨none, "t".data⟩ rfl).1

/-- Claim C8: the image check only tests the fixed four-character slice against
`.png` and `.jpg`, so paths ending in `.jpeg` or `.gif` are not rejected: with
a question they proceed to the model call, and without one they return the
conversion result's text content. -/
theorem C8_long_extensions_not_rejected (tl : Nat) (r : ConversionResult) (fp : Str)
    (q : Str)
    (h : endsWith ".jpeg".data fp = true ∨ endsWith ".gif".data fp = true)
    (hzip : hasSegment ".zip".data fp = false)
    (hq : q.isEmpty = false) :
    (forward tl (some r) fp (some q)).isUnsupportedInputRaise = false
    ∧ (forward_initial_exam_mode tl (some r) fp (some q)).isUnsupportedInputRaise = false
    ∧ (forward tl (some r) fp (some q)).isModelCall = true
    ∧ (forward_initial_exam_mode tl (some r) fp (some q)).isModelCall = true
    ∧ forward tl (some r) fp none = .returns r.text_content
    ∧ forward_initial_exam_mode tl (some r) fp none = .returns r.text_content := by
  have himg : sliceLastFour fp ∉ [".png".data, ".jpg".data] := by
    rcases h with h | h
    · rw [sliceLastFour_of_endsWith h (by decide)]
      decide
    · rw [sliceLastFour_of_endsWith h (by decide)]
      decide
  have hf := forward_shape tl r fp q himg hzip hq
  have he := exam_shape tl r fp q himg hzip hq
  have hn := no_question_branch tl r fp none himg hzip rfl
  exact ⟨by rw [hf]; rfl, by rw [he]; rfl, by rw [hf]; rfl, by rw [he]; rfl, hn.1, hn.2⟩

/-- Claim C8, witness: the theorem applied to `photo.jpeg`. -/
theorem C8_witness :
    endsWith ".jpeg".data "photo.jpeg".data = true
    ∧ hasSegment ".zip".data "photo.jpeg".data = false
    ∧ ("what?".data).isEmpty = false
    ∧ (forward 70000 (some ⟨some "T".data, "pix".data⟩) "photo.jpeg".data
        (some "what?".data)).isModelCall = true
    ∧ (forward 70000 (some ⟨some "T".data, "pix".data⟩) "photo.jpeg".data
        (some "what?".data)).isUnsupportedInputRaise = false := by
  refine ⟨by decide, by decide, by decide, ?_, ?_⟩
  · exact (C8_long_extensions_not_rejected 70000 ⟨some "T".data, "pix".data⟩
      "photo.jpeg".data "what?".data (Or.inl (by decide)) (by decide) (by decide)).2.2.1
  · exact (C8_long_extensions_not_rejected 70000 ⟨some "T".data, "pix".data⟩
      "photo.jpeg".data "what?".data (Or.inl (by decide)) (by decide) (by decide)).1

set_option maxRecDepth 8000

/-- Claim C2, counterexample to the claim as stated: in the spec's scenario 6
the system message built by `forward` carries the caption instruction plus the
question — it contains zero `A` characters and does not contain the title, so
it is not the message carrying the title plus the truncated text. -/
theorem C2_counterexample :
    ((forward 70000 (some ⟨some "Q3 Report".data, List.replicate 100000 'A'⟩)
        "report.pdf".data (some "What is the revenue?".data)).modelMessages.head?.map
      (fun m => m.content.count 'A')) = some 0
    ∧ ((forward 70000 (some ⟨some "Q3 Report".data, List.replicate 100000 'A'⟩)
        "report.pdf".data (some "What is the revenue?".data)).modelMessages.head?.map
      (fun m => hasSegment "Q3 Report".data m.content)) = some false := by
  constructor
  · decide
  · decide

/-- Claim C2, corrected: with a question and a non-image, non-archive path, the
initial-exam entry point sends a system message carrying the title plus the
truncated text and a user message carrying the question (and in the spec's
scenario its system-message content holds exactly 70000 `A` characters), while
the standard entry point sends a system message carrying the caption
instruction plus the question, a user message carrying the title plus the
truncated text, and a third user message carrying the three-headings
instruction plus the question. -/
theorem C2_prompt_shapes (tl : Nat) (r : ConversionResult) (fp : Str) (q : Str)
    (himg : sliceLastFour fp ∉ [".png".data, ".jpg".data])
    (hzip : hasSegment ".zip".data fp = false)
    (hq : q.isEmpty = false) :
    forward_initial_exam_mode tl (some r) fp (some q) = .callsModel (examMessages tl r q)
    ∧ forward tl (some r) fp (some q) = .callsModel (forwardMessages tl r q)
    ∧ (examMessages tl r q).map Message.role = [.SYSTEM, .USER]
    ∧ (forwardMessages tl r q).map Message.role = [.SYSTEM, .USER, .USER]
    ∧ ((forward_initial_exam_mode 70000
          (some ⟨some "Q3 Report".data, List.replicate 100000 'A'⟩)
          "report.pdf".data (some "What is the revenue?".data)).modelMessages.head?.map
        (fun m => m.content.count 'A')) = some 70000 := by
  refine ⟨exam_shape tl r fp q himg hzip hq, forward_shape tl r fp q himg hzip hq,
    rfl, rfl, ?_⟩
  rw [exam_shape 70000 ⟨some "Q3 Report".data, List.replicate 100000 'A'⟩
    "report.pdf".data "What is the revenue?".data (by decide) (by decide) (by decide)]
  simp only [Outcome.modelMessages, examMessages, List.head?_cons, Option.map_some']
  rw [Option.some.injEq, List.take_replicate]
  rw [show min 70000 100000 = 70000 by norm_num]
  simp only [pyStr]
  rw [List.count_append, List.count_append, List.count_append]
  rw [List.count_replicate_self]
  rw [show ("Here is a file:\n### ".data).count 'A' = 0 by decide]
  rw [show ("Q3 Report".data).count 'A' = 0 by decide]
  rw [show ("\n\n".data).count 'A' = 0 by decide]

/-- Claim C2, witness: the amended theorem applied at a concrete non-image,
non-archive path with a question. -/
theorem C2_witness :
    (sliceLastFour "a.txt".data ∉ [".png".data, ".jpg".data])
    ∧ hasSegment ".zip".data "a.txt".data = false
    ∧ ("q".data).isEmpty = false
    ∧ forward_initial_exam_mode 3 (some ⟨some "T".data, "hello".data⟩) "a.txt".data
        (some "q".data) = .callsModel (examMessages 3 ⟨some "T".data, "hello".data⟩ "q".data)
    ∧ forward 3 (some ⟨some "T".data, "hello".data⟩) "a.txt".data (some "q".data)
        = .callsModel (forwardMessages 3 ⟨some "T".data, "hello".data⟩ "q".data) := by
  refine ⟨by decide, by decide, by decide, ?_, ?_⟩
  · exact (C2_prompt_shapes 3 ⟨some "T".data, "hello".data⟩ "a.txt".data "q".data
      (by decide) (by decide) (by decide)).1
  · exact (C2_prompt_shapes 3 ⟨some "T".data, "hello".data⟩ "a.txt".data "q".data
      (by decide) (by decide) (by decide)).2.1

/-- Claim C5: with a question and a non-image, non-archive path, the prompt
depends on the text content only through its first `text_limit` characters —
replacing the text content by that prefix leaves both outcomes unchanged — and
each prompt contains the title and that prefix as contiguous segments. -/
theorem C5_strict_truncation (tl : Nat) (r : ConversionResult) (fp : Str) (q : Str)
    (himg : sliceLastFour fp ∉ [".png".data, ".jpg".data])
    (hzip : hasSegment ".zip".data fp = false)
    (hq : q.isEmpty = false) :
    forward tl (some r) fp (some q)
      = forward tl (some ⟨r.title, r.text_content.take tl⟩) fp (some q)
    ∧ forward_initial_exam_mode tl (some r) fp (some q)
      = forward_initial_exam_mode tl (some ⟨r.title, r.text_content.take tl⟩) fp (some q)
    ∧ hasSegment (pyStr r.title)
        ((forward tl (some r) fp (some q)).joinedContent) = true
    ∧ hasSegment (r.text_content.take tl)
        ((forward tl (some r) fp (some q)).joinedContent) = true
    ∧ hasSegment (pyStr r.title)
        ((forward_initial_exam_mode tl (some r) fp (some q)).joinedContent) = true
    ∧ hasSegment (r.text_content.take tl)
        ((forward_initial_exam_mode tl (some r) fp (some q)).joinedContent) = true := by
  have hf := forward_shape tl r fp q himg hzip hq
  have hf' := forward_shape tl ⟨r.title, r.text_content.take tl⟩ fp q himg hzip hq
  have he := exam_shape tl r fp q himg hzip hq
  have he' := exam_shape tl ⟨r.title, r.text_content.take tl⟩ fp q himg hzip hq
  have htake : (r.text_content.take tl).take tl = r.text_content.take tl := by
    rw [List.take_take, Nat.min_self]
  refine ⟨?_, ?_, ?_, ?_, ?_, ?_⟩
  · rw [hf, hf']
    simp only [forwardMessages, htake]
  · rw [he, he']
    simp only [examMessages, htake]
  · rw [hf]
    simp only [Outcome.joinedContent, Outcome.modelMessages, forwardMessages,
      List.map_cons, List.map_nil, List.flatten_cons, List.flatten_nil,
      List.append_assoc, List.append_nil]
    exact hasSegment_append_left _ _ _ (hasSegment_append_left _ _ _
      (hasSegment_append_left _ _ _ (hasSegment_here _ _)))
  · rw [hf]
    simp only [Outcome.joinedContent, Outcome.modelMessages, forwardMessages,
      List.map_cons, List.map_nil, List.flatten_cons, List.flatten_nil,
      List.append_assoc, List.append_nil]
    exact hasSegment_append_left _ _ _ (hasSegment_append_left _ _ _
      (hasSegment_append_left _ _ _ (hasSegment_append_left _ _ _
        (hasSegment_append_left _ _ _ (hasSegment_here _ _)))))
  · rw [he]
    simp only [Outcome.joinedContent, Outcome.modelMessages, examMessages,
      List.map_cons, List.map_nil, List.flatten_cons, List.flatten_nil,
      List.append_assoc, List.append_nil]
    exact hasSegment_append_left _ _ _ (hasSegment_here _ _)
  · rw [he]
    simp only [Outcome.joinedContent, Outcome.modelMessages, examMessages,
      List.map_cons, List.map_nil, List.flatten_cons, List.flatten_nil,
      List.append_assoc, List.append_nil]
    exact hasSegment_append_left _ _ _ (hasSegment_append_left _ _ _
      (hasSegment_append_left _ _ _ (hasSegment_here _ _)))

/-- Claim C5, witness: the theorem applied at a concrete input whose text is
longer than the limit. -/
theorem C5_witness :
    (sliceLastFour "a.txt".data ∉ [".png".data, ".jpg".data])
    ∧ hasSegment ".zip".data "a.txt".data = false
    ∧ ("q".data).isEmpty = false
    ∧ forward 3 (some ⟨some "T".data, "hello".data⟩) "a.txt".data (some "q".data)
        = forward 3 (some ⟨some "T".data, ("hello".data).take 3⟩) "a.txt".data
            (some "q".data)
    ∧ hasSegment (pyStr (some "T".data))
        ((forward 3 (some ⟨some "T".data, "hello".data⟩) "a.txt".data
          (some "q".data)).joinedContent) = true
    ∧ hasSegment (("hello".data).take 3)
        ((forward 3 (some ⟨some "T".data, "hello".data⟩) "a.txt".data
          (some "q".data)).joinedContent) = true := by
  refine ⟨by decide, by decide, by decide, ?_, ?_, ?_⟩
  · exact (C5_strict_truncation 3 ⟨some "T".data, "hello".data⟩ "a.txt".data "q".data
      (by decide) (by decide) (by decide)).1
  · exact (C5_strict_truncation 3 ⟨some "T".data, "hello".data⟩ "a.txt".data "q".data
      (by decide) (by decide) (by decide)).2.2.1
  · exact (C5_strict_truncation 3 ⟨some "T".data, "hello".data⟩ "a.txt".data "q".data
      (by decide) (by decide) (by decide)).2.2.2.1

/-- Claim C10: when the conversion title is absent, prompt construction still
succeeds — the title is coerced to the literal text `None`, the message
carrying the file contains that text, and the model call proceeds in both
entry points. -/
theorem C10_none_title_coerced (tl : Nat) (text : Str) (fp : Str) (q : Str)
    (himg : sliceLastFour fp ∉ [".png".data, ".jpg".data])
    (hzip : hasSegment ".zip".data fp = false)
    (hq : q.isEmpty = false) :
    forward tl (some ⟨none, text⟩) fp (some q)
      = .callsModel (forwardMessages tl ⟨none, text⟩ q)
    ∧ ((forward tl (some ⟨none, text⟩) fp (some q)).modelMessages[1]?).map
        (fun m => hasSegment "None".data m.content) = some true
    ∧ ((forward_initial_exam_mode tl (some ⟨none, text⟩) fp (some q)).modelMessages[0]?).map
        (fun m => hasSegment "None".data m.content) = some true
    ∧ (forward tl (some ⟨none, text⟩) fp (some q)).isModelCall = true
    ∧ (forward_initial_exam_mode tl (some ⟨none, text⟩) fp (some q)).isModelCall = true := by
  have hf := forward_shape tl ⟨none, text⟩ fp q himg hzip hq
  have he := exam_shape tl ⟨none, text⟩ fp q himg hzip hq
  refine ⟨hf, ?_, ?_, by rw [hf]; rfl, by rw [he]; rfl⟩
  · rw [hf]
    simp only [Outcome.modelMessages, forwardMessages, List.getElem?_cons_succ,
      List.getElem?_cons_zero, Option.map_some', Option.some.injEq, pyStr,
      List.append_assoc]
    exact hasSegment_append_left _ _ _ (hasSegment_here _ _)
  · rw [he]
    simp only [Outcome.modelMessages, examMessages, List.getElem?_cons_zero,
      Option.map_some', Option.some.injEq, pyStr, List.append_assoc]
    exact hasSegment_append_left _ _ _ (hasSegment_here _ _)

/-- Claim C10, witness: the theorem applied at a concrete path with an absent
title. -/
theorem C10_witness :
    (sliceLastFour "doc.pdf".data ∉ [".png".data, ".jpg".data])
    ∧ hasSegment ".zip".data "doc.pdf".data = false
    ∧ ("why?".data).isEmpty = false
    ∧ ((forward 5 (some ⟨none, "words".data⟩) "doc.pdf".data
        (some "why?".data)).modelMessages[1]?).map
          (fun m => hasSegment "None".data m.content) = some true
    ∧ (forward 5 (some ⟨none, "words".data⟩) "doc.pdf".data
        (some "why?".data)).isModelCall = true := by
  refine ⟨by decide, by decide, by decide, ?_, ?_⟩
  · exact (C10_none_title_coerced 5 "words".data "doc.pdf".data "why?".data
      (by decide) (by decide) (by decide)).2.1
  · exact (C10_none_title_coerced 5 "words".data "doc.pdf".data "why?".data
      (by decide) (by decide) (by decide)).2.2.2.1

end Gaia
